import Mathlib

/-!
Shallow embedding of the r2db2 load-generation script (src/locustfile.py).

The script defines a single Locust user class `TcpClient` with
  - `wait_time = between(1, 2)`
  - `on_start`: create one IPv4 stream socket and store it in `self.sock`
  - `on_stop`: close `self.sock`
  - task `connect_to_server`:
      try:
        self.sock.connect(("127.0.0.1", 2345))
        time.sleep(random.randint(1, 10))
        self.sock.close()
      except socket.error:
        time.sleep(1)

The embedding models the socket as a status machine (fresh, connected,
closed) plus an identity, and records the observable effects of one task
invocation (connect attempts with their target, sleeps with their duration,
close calls, data transfers) in an event trace.  Python semantics that the
script relies on are modelled explicitly:
  - `connect` on a closed socket raises OSError (EBADF), which in Python 3
    is the same class as `socket.error`; `connect` on an already connected
    socket raises OSError (EISCONN);
  - `close` on an already-closed socket is a no-op and never raises;
    closing a live connection may in principle fail at the OS level, which
    the environment models with an optional exception;
  - `random.randint(1, 10)` returns an integer uniformly drawn from the
    closed range [1, 10]; the draw is modelled by a seed supplied by the
    environment.
Exceptions are modelled by an environment that decides, for each call that
can fail, whether it raises `socket.error`, some other exception, or
nothing.
-/

namespace R2db2

/-- Python exception classes that matter to the script: `socket.error`
(an alias of OSError in Python 3) versus everything else. -/
inductive Exc
  | socketError
  | otherError
deriving DecidableEq

/-- Lifecycle status of the one socket owned by a simulated user. -/
inductive SockStatus
  | fresh
  | connected
  | closed
deriving DecidableEq

/-- The socket object stored in `self.sock`: an identity (so that object
reuse versus recreation is observable) and a status. -/
structure Socket where
  id : Nat
  status : SockStatus
deriving DecidableEq

/-- The per-user state of `TcpClient`: its only field is `self.sock`. -/
structure UserState where
  sock : Socket
deriving DecidableEq

/-- Environment for one task invocation: the outcome the operating system
gives to the connect attempt (when the socket is fresh), the outcome of
closing a live connection, and the seed of the `random.randint` draw. -/
structure Env where
  connectExc : Option Exc
  closeExc : Option Exc
  seed : Nat
deriving DecidableEq

/-- Observable effects of the script. `send` and `recv` never occur in any
trace the script produces; they are present so that the absence of data
transfer is a statement about traces rather than about the syntax. -/
inductive Event
  | connectAttempt (host : String) (port : Nat)
  | sleep (secs : Nat)
  | closeCall
  | send (bytes : Nat)
  | recv (bytes : Nat)
deriving DecidableEq

/-- `random.randint a b`: an integer uniformly drawn from the closed range
[a, b], modelled as a function of the environment seed. -/
def randint (a b seed : Nat) : Nat := a + seed % (b - a + 1)

/-- `sock.connect((host, port))`.  On a fresh socket the environment decides
success or the raised exception; on a connected socket Python raises
OSError (EISCONN); on a closed socket Python raises OSError (EBADF).  Both
are `socket.error` in Python 3.  The host and port do not affect the
modelled outcome. -/
def Socket.connect (s : Socket) (_host : String) (_port : Nat) (env : Env) :
    Socket × Option Exc :=
  match s.status with
  | SockStatus.fresh =>
      match env.connectExc with
      | none => ({ s with status := SockStatus.connected }, none)
      | some e => (s, some e)
  | SockStatus.connected => (s, some Exc.socketError)
  | SockStatus.closed => (s, some Exc.socketError)

/-- `sock.close()`.  Closing an already-closed socket is a no-op that never
raises; closing a live (connected) socket releases it and may raise the
environment-chosen exception; closing a fresh socket succeeds silently. -/
def Socket.close (s : Socket) (env : Env) : Socket × Option Exc :=
  match s.status with
  | SockStatus.closed => (s, none)
  | SockStatus.connected => ({ s with status := SockStatus.closed }, env.closeExc)
  | SockStatus.fresh => ({ s with status := SockStatus.closed }, none)

/-- `on_start`: create the socket object and store it in `self.sock`. -/
def on_start (id : Nat) : UserState :=
  { sock := { id := id, status := SockStatus.fresh } }

/-- `on_stop`: `self.sock.close()`, with no exception handling of its own. -/
def on_stop (st : UserState) (env : Env) : UserState × Option Exc :=
  let r := Socket.close st.sock env
  ({ sock := r.1 }, r.2)

/-- The body of the `try:` block of `connect_to_server`: connect, sleep a
`randint 1 10` number of seconds, close.  A raised exception aborts the
block at the raising statement and is reported as the third component. -/
def tryBlock (st : UserState) (env : Env) : UserState × List Event × Option Exc :=
  let c := Socket.connect st.sock "127.0.0.1" 2345 env
  match c.2 with
  | some e => ({ sock := c.1 }, [Event.connectAttempt "127.0.0.1" 2345], some e)
  | none =>
      let d := randint 1 10 env.seed
      let k := Socket.close c.1 env
      ({ sock := k.1 },
        [Event.connectAttempt "127.0.0.1" 2345, Event.sleep d, Event.closeCall],
        k.2)

/-- The `except socket.error:` clause: a `socket.error` escaping the try
block is swallowed and followed by `time.sleep(1)`; any other exception
propagates; a normal completion passes through. -/
def handleExc : UserState × List Event × Option Exc →
    UserState × List Event × Option Exc
  | (st1, tr, some Exc.socketError) => (st1, tr ++ [Event.sleep 1], none)
  | (st1, tr, r) => (st1, tr, r)

/-- The task `connect_to_server`: the try block wrapped in the
`except socket.error` handler. -/
def connect_to_server (st : UserState) (env : Env) :
    UserState × List Event × Option Exc :=
  handleExc (tryBlock st env)

/-- A session: `on_start` once, then one task invocation per environment in
the list, threading `self.sock` through. -/
def runTasks (st : UserState) (envs : List Env) : UserState :=
  envs.foldl (fun s e => (connect_to_server s e).1) st

/-- Total seconds slept during a trace. -/
def totalSleep : List Event → Nat
  | [] => 0
  | Event.sleep d :: tr => d + totalSleep tr
  | _ :: tr => totalSleep tr

/-- Number of `close` calls in a trace. -/
def countClose : List Event → Nat
  | [] => 0
  | Event.closeCall :: tr => 1 + countClose tr
  | _ :: tr => countClose tr

/-- Number of connect attempts in a trace. -/
def countConnect : List Event → Nat
  | [] => 0
  | Event.connectAttempt _ _ :: tr => 1 + countConnect tr
  | _ :: tr => countConnect tr

/-- Every connect attempt in the trace targets 127.0.0.1 port 2345. -/
def connectTargetsOk (tr : List Event) : Bool :=
  tr.all fun e =>
    match e with
    | Event.connectAttempt h p => h == "127.0.0.1" && p == 2345
    | _ => true

/-- The trace transfers no data in either direction. -/
def dataFree (tr : List Event) : Bool :=
  tr.all fun e =>
    match e with
    | Event.send _ => false
    | Event.recv _ => false
    | _ => true

/-- Modelled from the spec: the harness-supplied `between(a, b)` wait-time
policy (the harness code is not part of this repository).  It draws a wait
of `a + r * (b - a)` seconds where `r` is a uniform random number with
`0 ≤ r < 1`, modelled over the rationals. -/
def between (a b r : ℚ) : ℚ := a + r * (b - a)

/-- `wait_time = between(1, 2)` as configured on `TcpClient`. -/
def wait_time (r : ℚ) : ℚ := between 1 2 r

/-- Concrete environment: connect raises `socket.error`. -/
def envErr : Env := { connectExc := some Exc.socketError, closeExc := none, seed := 0 }

/-- Concrete environment: everything succeeds. -/
def envOk : Env := { connectExc := none, closeExc := none, seed := 3 }

/-- Concrete environment: connect succeeds, close raises `socket.error`. -/
def envCloseErr : Env := { connectExc := none, closeExc := some Exc.socketError, seed := 2 }

/-- Concrete environment: connect raises a non-socket exception. -/
def envOther : Env := { connectExc := some Exc.otherError, closeExc := none, seed := 0 }

/-- Concrete user state whose socket is already closed, as left behind by a
first successful task cycle. -/
def stClosed : UserState := { sock := { id := 7, status := SockStatus.closed } }

/-! ### Helper lemmas -/

/-- A successful connect happens exactly on a fresh socket when the
environment raises nothing. -/
lemma connect_eq_none_iff (s : Socket) (env : Env) :
    (Socket.connect s "127.0.0.1" 2345 env).2 = none ↔
      s.status = SockStatus.fresh ∧ env.connectExc = none := by
  obtain ⟨n, status⟩ := s
  cases status <;> cases hc : env.connectExc <;>
    simp [Socket.connect, hc]

/-- The except clause never changes the user state. -/
lemma handleExc_fst (p : UserState × List Event × Option Exc) :
    (handleExc p).1 = p.1 := by
  obtain ⟨a, b, c⟩ := p
  cases c with
  | none => rfl
  | some e => cases e <;> rfl

/-- A normally completing try block passes through the except clause. -/
lemma handleExc_of_none (p : UserState × List Event × Option Exc)
    (h : p.2.2 = none) : handleExc p = p := by
  obtain ⟨a, b, c⟩ := p
  simp only at h
  subst h
  rfl

/-- A `socket.error` escaping the try block is swallowed and followed by a
one-second sleep. -/
lemma handleExc_of_sockErr (p : UserState × List Event × Option Exc)
    (h : p.2.2 = some Exc.socketError) :
    handleExc p = (p.1, p.2.1 ++ [Event.sleep 1], none) := by
  obtain ⟨a, b, c⟩ := p
  simp only at h
  subst h
  rfl

/-- A non-socket exception escaping the try block passes through the except
clause unchanged. -/
lemma handleExc_of_other (p : UserState × List Event × Option Exc)
    (h : p.2.2 = some Exc.otherError) : handleExc p = p := by
  obtain ⟨a, b, c⟩ := p
  simp only at h
  subst h
  rfl

/-- One task invocation never changes the identity of `self.sock`. -/
lemma connect_to_server_id (st : UserState) (env : Env) :
    (connect_to_server st env).1.sock.id = st.sock.id := by
  rw [connect_to_server, handleExc_fst]
  obtain ⟨⟨n, status⟩⟩ := st
  cases status <;> cases hc : env.connectExc <;>
    simp [tryBlock, Socket.connect, Socket.close, hc]

/-- One task invocation never leaves the socket connected when it was not
connected before. -/
lemma connect_to_server_not_connected (st : UserState) (env : Env)
    (h : st.sock.status ≠ SockStatus.connected) :
    (connect_to_server st env).1.sock.status ≠ SockStatus.connected := by
  rw [connect_to_server, handleExc_fst]
  obtain ⟨⟨n, status⟩⟩ := st
  cases status <;> cases hc : env.connectExc <;>
    simp_all [tryBlock, Socket.connect, Socket.close, hc]

/-- Shape of the try block when the connect call raises. -/
lemma tryBlock_of_connect_err (st : UserState) (env : Env) (e : Exc)
    (h : (Socket.connect st.sock "127.0.0.1" 2345 env).2 = some e) :
    tryBlock st env =
      ({ sock := (Socket.connect st.sock "127.0.0.1" 2345 env).1 },
        [Event.connectAttempt "127.0.0.1" 2345], some e) := by
  simp [tryBlock, h]

/-- Shape of the try block when the connect call succeeds. -/
lemma tryBlock_of_connect_ok (st : UserState) (env : Env)
    (h : (Socket.connect st.sock "127.0.0.1" 2345 env).2 = none) :
    tryBlock st env =
      ({ sock := (Socket.close (Socket.connect st.sock "127.0.0.1" 2345 env).1 env).1 },
        [Event.connectAttempt "127.0.0.1" 2345,
         Event.sleep (randint 1 10 env.seed), Event.closeCall],
        (Socket.close (Socket.connect st.sock "127.0.0.1" 2345 env).1 env).2) := by
  simp [tryBlock, h]

/-- The full behaviour of one task invocation whose connect raises a
`socket.error`. -/
lemma run_of_connect_err (st : UserState) (env : Env)
    (h : (Socket.connect st.sock "127.0.0.1" 2345 env).2 = some Exc.socketError) :
    connect_to_server st env =
      ({ sock := (Socket.connect st.sock "127.0.0.1" 2345 env).1 },
        [Event.connectAttempt "127.0.0.1" 2345, Event.sleep 1], none) := by
  simp only [connect_to_server, tryBlock_of_connect_err st env Exc.socketError h]
  rfl

/-- The full behaviour of one task invocation whose connect raises a
non-socket exception. -/
lemma run_of_connect_other (st : UserState) (env : Env)
    (h : (Socket.connect st.sock "127.0.0.1" 2345 env).2 = some Exc.otherError) :
    connect_to_server st env =
      ({ sock := (Socket.connect st.sock "127.0.0.1" 2345 env).1 },
        [Event.connectAttempt "127.0.0.1" 2345], some Exc.otherError) := by
  simp only [connect_to_server, tryBlock_of_connect_err st env Exc.otherError h]
  rfl

/-- A successful connect turns the socket connected. -/
lemma connect_ok_connected (st : UserState) (env : Env)
    (h : (Socket.connect st.sock "127.0.0.1" 2345 env).2 = none) :
    (Socket.connect st.sock "127.0.0.1" 2345 env).1.status = SockStatus.connected := by
  obtain ⟨hs, hc⟩ := (connect_eq_none_iff st.sock env).1 h
  simp [Socket.connect, hs, hc]

/-- After a successful connect, the close in the try block reports the
environment-chosen close outcome. -/
lemma close_after_connect_ok (st : UserState) (env : Env)
    (h : (Socket.connect st.sock "127.0.0.1" 2345 env).2 = none) :
    (Socket.close (Socket.connect st.sock "127.0.0.1" 2345 env).1 env).2 =
      env.closeExc := by
  simp [Socket.close, connect_ok_connected st env h]

/-- After a successful connect, the close in the try block leaves the
socket closed. -/
lemma close_after_connect_ok_closed (st : UserState) (env : Env)
    (h : (Socket.connect st.sock "127.0.0.1" 2345 env).2 = none) :
    (Socket.close (Socket.connect st.sock "127.0.0.1" 2345 env).1 env).1.status =
      SockStatus.closed := by
  simp [Socket.close, connect_ok_connected st env h]

/-- Trace of an invocation whose connect succeeds: connect, sleep, close,
then possibly the backoff sleep when the close raised a socket error. -/
lemma trace_of_connect_ok (st : UserState) (env : Env)
    (h : (Socket.connect st.sock "127.0.0.1" 2345 env).2 = none) :
    ∃ rest, (connect_to_server st env).2.1 =
        [Event.connectAttempt "127.0.0.1" 2345,
         Event.sleep (randint 1 10 env.seed), Event.closeCall] ++ rest ∧
      (rest = [] ∨ rest = [Event.sleep 1]) := by
  simp only [connect_to_server, tryBlock_of_connect_ok st env h]
  rw [close_after_connect_ok st env h]
  cases hk : env.closeExc with
  | none => exact ⟨[], by simp [handleExc], Or.inl rfl⟩
  | some e =>
      cases e with
      | socketError => exact ⟨[Event.sleep 1], by simp [handleExc], Or.inr rfl⟩
      | otherError => exact ⟨[], by simp [handleExc], Or.inl rfl⟩

/-- A successful connect always leaves the socket closed at the end of the
invocation. -/
lemma state_of_connect_ok (st : UserState) (env : Env)
    (h : (Socket.connect st.sock "127.0.0.1" 2345 env).2 = none) :
    (connect_to_server st env).1.sock.status = SockStatus.closed := by
  rw [connect_to_server, handleExc_fst]
  rw [tryBlock_of_connect_ok st env h]
  exact close_after_connect_ok_closed st env h

/-- The except clause never lets a `socket.error` through. -/
lemma handleExc_ne_sockErr (p : UserState × List Event × Option Exc) :
    (handleExc p).2.2 ≠ some Exc.socketError := by
  obtain ⟨a, b, c⟩ := p
  cases c with
  | none => simp [handleExc]
  | some e => cases e <;> simp [handleExc]

/-- The socket identity is invariant under any whole session of task
invocations. -/
lemma runTasks_id (st : UserState) (envs : List Env) :
    (runTasks st envs).sock.id = st.sock.id := by
  induction envs generalizing st with
  | nil => rfl
  | cons e t ih =>
      have h1 : runTasks st (e :: t) = runTasks (connect_to_server st e).1 t := rfl
      rw [h1, ih, connect_to_server_id]

/-- A session starting from a non-connected socket never reaches a
connected socket between tasks. -/
lemma runTasks_not_connected (st : UserState) (envs : List Env)
    (h : st.sock.status ≠ SockStatus.connected) :
    (runTasks st envs).sock.status ≠ SockStatus.connected := by
  induction envs generalizing st with
  | nil => exact h
  | cons e t ih =>
      have h1 : runTasks st (e :: t) = runTasks (connect_to_server st e).1 t := rfl
      rw [h1]
      exact ih _ (connect_to_server_not_connected st e h)

/-- Close calls are unaffected by appended sleeps. -/
lemma countClose_append (l₁ l₂ : List Event) :
    countClose (l₁ ++ l₂) = countClose l₁ + countClose l₂ := by
  induction l₁ with
  | nil => simp [countClose]
  | cons a t ih => cases a <;> simp [countClose, ih, Nat.add_assoc]

/-! ### Claim theorems -/

/-- C1: when the connect attempt raises a `socket.error`, the error is
caught, the task sleeps one second and returns normally (no exception
escapes), the whole invocation sleeps at least one second in total, and the
attempt is not retried: exactly one connect attempt occurs. -/
theorem connect_error_backoff (st : UserState) (env : Env)
    (h : (Socket.connect st.sock "127.0.0.1" 2345 env).2 = some Exc.socketError) :
    (connect_to_server st env).2.2 = none ∧
    (connect_to_server st env).2.1 =
      [Event.connectAttempt "127.0.0.1" 2345, Event.sleep 1] ∧
    1 ≤ totalSleep (connect_to_server st env).2.1 ∧
    countConnect (connect_to_server st env).2.1 = 1 := by
  rw [run_of_connect_err st env h]
  exact ⟨rfl, rfl, by simp [totalSleep], by simp [countConnect]⟩

/-- C1 witness: a fresh socket whose connect attempt is refused. -/
theorem connect_error_backoff_witness :
    (connect_to_server (on_start 0) envErr).2.2 = none ∧
    (connect_to_server (on_start 0) envErr).2.1 =
      [Event.connectAttempt "127.0.0.1" 2345, Event.sleep 1] ∧
    1 ≤ totalSleep (connect_to_server (on_start 0) envErr).2.1 ∧
    countConnect (connect_to_server (on_start 0) envErr).2.1 = 1 :=
  connect_error_backoff (on_start 0) envErr rfl

/-- C2 counterexample: on an invocation whose connect attempt raises a
socket error, the socket is not closed at all during that attempt, so it is
not closed exactly once on every exit path. -/
theorem close_once_cex :
    ¬ countClose (connect_to_server (on_start 0) envErr).2.1 = 1 := by
  decide

/-- C2 (amended): the socket is closed exactly once during an invocation
whose connect succeeds, and zero times during an invocation whose connect
raises. -/
theorem close_once_on_success (st : UserState) (env : Env) :
    ((Socket.connect st.sock "127.0.0.1" 2345 env).2 = none →
      countClose (connect_to_server st env).2.1 = 1) ∧
    ∀ e, (Socket.connect st.sock "127.0.0.1" 2345 env).2 = some e →
      countClose (connect_to_server st env).2.1 = 0 := by
  constructor
  · intro h
    obtain ⟨rest, htr, hrest⟩ := trace_of_connect_ok st env h
    rw [htr, countClose_append]
    rcases hrest with h0 | h1 <;> subst rest <;> simp [countClose]
  · intro e he
    cases e with
    | socketError => rw [run_of_connect_err st env he]; simp [countClose]
    | otherError => rw [run_of_connect_other st env he]; simp [countClose]

/-- C2 witness: a successful invocation closes the socket exactly once. -/
theorem close_once_on_success_witness :
    countClose (connect_to_server (on_start 0) envOk).2.1 = 1 :=
  (close_once_on_success (on_start 0) envOk).1 rfl

/-- C3: on a successful run the connect leaves the socket connected before
the sleep, the trace is connect then sleep then close (possibly followed by
the backoff sleep), and the socket is closed when the task returns. -/
theorem success_socket_lifecycle (st : UserState) (env : Env)
    (h : (Socket.connect st.sock "127.0.0.1" 2345 env).2 = none) :
    (Socket.connect st.sock "127.0.0.1" 2345 env).1.status = SockStatus.connected ∧
    (∃ rest, (connect_to_server st env).2.1 =
        [Event.connectAttempt "127.0.0.1" 2345,
         Event.sleep (randint 1 10 env.seed), Event.closeCall] ++ rest) ∧
    (connect_to_server st env).1.sock.status = SockStatus.closed := by
  obtain ⟨rest, htr, _⟩ := trace_of_connect_ok st env h
  exact ⟨connect_ok_connected st env h, ⟨rest, htr⟩, state_of_connect_ok st env h⟩

/-- C3 witness: a fresh socket on an invocation where everything succeeds. -/
theorem success_socket_lifecycle_witness :
    (Socket.connect (on_start 0).sock "127.0.0.1" 2345 envOk).1.status =
      SockStatus.connected ∧
    (∃ rest, (connect_to_server (on_start 0) envOk).2.1 =
        [Event.connectAttempt "127.0.0.1" 2345,
         Event.sleep (randint 1 10 envOk.seed), Event.closeCall] ++ rest) ∧
    (connect_to_server (on_start 0) envOk).1.sock.status = SockStatus.closed :=
  success_socket_lifecycle (on_start 0) envOk rfl

/-- C4: on a successful invocation the sleep between connect and close
lasts `randint 1 10` seconds, a value always in the closed range [1, 10],
and the draw is uniform: over ten consecutive seeds every value of the
range occurs exactly once. -/
theorem sleep_uniform_range (st : UserState) (env : Env)
    (h : (Socket.connect st.sock "127.0.0.1" 2345 env).2 = none) :
    (∃ rest, (connect_to_server st env).2.1 =
        Event.connectAttempt "127.0.0.1" 2345 ::
          Event.sleep (randint 1 10 env.seed) :: Event.closeCall :: rest) ∧
    1 ≤ randint 1 10 env.seed ∧ randint 1 10 env.seed ≤ 10 ∧
    (List.range 10).map (randint 1 10) = [1, 2, 3, 4, 5, 6, 7, 8, 9, 10] := by
  obtain ⟨rest, htr, _⟩ := trace_of_connect_ok st env h
  refine ⟨⟨rest, htr⟩, ?_, ?_, by decide⟩
  · simp [randint]
  · have h10 : env.seed % 10 < 10 := Nat.mod_lt _ (by norm_num)
    simp only [randint]
    omega

/-- C4 witness: the successful concrete invocation. -/
theorem sleep_uniform_range_witness :
    (∃ rest, (connect_to_server (on_start 0) envOk).2.1 =
        Event.connectAttempt "127.0.0.1" 2345 ::
          Event.sleep (randint 1 10 envOk.seed) :: Event.closeCall :: rest) ∧
    1 ≤ randint 1 10 envOk.seed ∧ randint 1 10 envOk.seed ≤ 10 ∧
    (List.range 10).map (randint 1 10) = [1, 2, 3, 4, 5, 6, 7, 8, 9, 10] :=
  sleep_uniform_range (on_start 0) envOk rfl

/-- C5: the task never recreates or reassigns the socket: one invocation
preserves the socket identity, a whole session keeps the identity created
by `on_start`, and once the socket is closed a later invocation operates on
the already-closed socket: its connect raises, is swallowed, the socket
stays closed and the invocation degenerates to the backoff. -/
theorem socket_never_recreated (st : UserState) (env : Env) (id : Nat)
    (envs : List Env) :
    (connect_to_server st env).1.sock.id = st.sock.id ∧
    (runTasks (on_start id) envs).sock.id = id ∧
    (st.sock.status = SockStatus.closed →
      (connect_to_server st env).1.sock.status = SockStatus.closed ∧
      (connect_to_server st env).2.2 = none ∧
      (connect_to_server st env).2.1 =
        [Event.connectAttempt "127.0.0.1" 2345, Event.sleep 1]) := by
  refine ⟨connect_to_server_id st env, runTasks_id (on_start id) envs, ?_⟩
  intro hcl
  have he : (Socket.connect st.sock "127.0.0.1" 2345 env).2 = some Exc.socketError := by
    simp [Socket.connect, hcl]
  have h1 : (Socket.connect st.sock "127.0.0.1" 2345 env).1 = st.sock := by
    simp [Socket.connect, hcl]
  rw [run_of_connect_err st env he, h1]
  exact ⟨hcl, rfl, rfl⟩

/-- C5 witness: a second cycle on the socket closed by the first cycle. -/
theorem socket_never_recreated_witness :
    (connect_to_server stClosed envOk).1.sock.status = SockStatus.closed ∧
    (connect_to_server stClosed envOk).2.2 = none ∧
    (connect_to_server stClosed envOk).2.1 =
      [Event.connectAttempt "127.0.0.1" 2345, Event.sleep 1] :=
  (socket_never_recreated stClosed envOk 7 []).2.2 rfl

/-- C6: `on_stop` always leaves the socket closed, and never raises in any
state the socket can be in when the harness calls it (fresh after
`on_start`, or closed after a task cycle; a session never parks the socket
connected between tasks, as the third conjunct shows). Double-close is a
no-op in Python and raises nothing. -/
theorem on_stop_always_closes (st : UserState) (env : Env) (id : Nat)
    (envs : List Env) :
    (on_stop st env).1.sock.status = SockStatus.closed ∧
    (st.sock.status ≠ SockStatus.connected → (on_stop st env).2 = none) ∧
    (runTasks (on_start id) envs).sock.status ≠ SockStatus.connected := by
  refine ⟨?_, ?_, runTasks_not_connected (on_start id) envs (by simp [on_start])⟩
  · obtain ⟨⟨n, status⟩⟩ := st
    cases status <;> simp [on_stop, Socket.close]
  · intro h
    obtain ⟨⟨n, status⟩⟩ := st
    cases status <;> simp_all [on_stop, Socket.close]

/-- C6 witness: stop straight after start, and stop after a task already
closed the socket; neither raises. -/
theorem on_stop_always_closes_witness :
    (on_stop (on_start 0) envOk).2 = none ∧ (on_stop stClosed envOk).2 = none :=
  ⟨(on_stop_always_closes (on_start 0) envOk 0 []).2.1 (by decide),
   (on_stop_always_closes stClosed envOk 0 []).2.1 (by decide)⟩

/-- C7: every connect attempt in any invocation targets exactly
127.0.0.1 port 2345, and no data is sent or received. -/
theorem connect_target_fixed_no_data (st : UserState) (env : Env) :
    connectTargetsOk (connect_to_server st env).2.1 = true ∧
    dataFree (connect_to_server st env).2.1 = true := by
  rcases hc : (Socket.connect st.sock "127.0.0.1" 2345 env).2 with _ | e
  · obtain ⟨rest, htr, hrest⟩ := trace_of_connect_ok st env hc
    rw [htr]
    rcases hrest with h0 | h1 <;> subst rest <;>
      simp [connectTargetsOk, dataFree]
  · cases e with
    | socketError =>
        rw [run_of_connect_err st env hc]
        simp [connectTargetsOk, dataFree]
    | otherError =>
        rw [run_of_connect_other st env hc]
        simp [connectTargetsOk, dataFree]

/-- C8: a non-socket exception escaping the try block propagates out of the
task unchanged. -/
theorem non_socket_exceptions_propagate (st : UserState) (env : Env)
    (h : (tryBlock st env).2.2 = some Exc.otherError) :
    (connect_to_server st env).2.2 = some Exc.otherError := by
  rw [connect_to_server, handleExc_of_other _ h]
  exact h

/-- C8 witness: the connect attempt raises a non-socket exception. -/
theorem non_socket_exceptions_propagate_witness :
    (connect_to_server (on_start 0) envOther).2.2 = some Exc.otherError :=
  non_socket_exceptions_propagate (on_start 0) envOther rfl

/-- C9: the try block wraps the close as well: a `socket.error` raised by
the close after a successful connect is caught and triggers the one-second
backoff; and no invocation ever lets a `socket.error` escape. -/
theorem try_wraps_close_no_socket_error (st : UserState) (env : Env) :
    (connect_to_server st env).2.2 ≠ some Exc.socketError ∧
    ((Socket.connect st.sock "127.0.0.1" 2345 env).2 = none →
      env.closeExc = some Exc.socketError →
      (connect_to_server st env).2.2 = none ∧
      (connect_to_server st env).2.1 =
        [Event.connectAttempt "127.0.0.1" 2345,
         Event.sleep (randint 1 10 env.seed), Event.closeCall, Event.sleep 1]) := by
  refine ⟨handleExc_ne_sockErr _, ?_⟩
  intro h hk
  have hko : (Socket.close (Socket.connect st.sock "127.0.0.1" 2345 env).1 env).2 =
      some Exc.socketError := by
    rw [close_after_connect_ok st env h, hk]
  simp only [connect_to_server, tryBlock_of_connect_ok st env h, hko]
  exact ⟨rfl, rfl⟩

/-- C9 witness: connect succeeds and the close raises a socket error. -/
theorem try_wraps_close_no_socket_error_witness :
    (connect_to_server (on_start 0) envCloseErr).2.2 = none ∧
    (connect_to_server (on_start 0) envCloseErr).2.1 =
      [Event.connectAttempt "127.0.0.1" 2345,
       Event.sleep (randint 1 10 envCloseErr.seed), Event.closeCall,
       Event.sleep 1] :=
  (try_wraps_close_no_socket_error (on_start 0) envCloseErr).2 rfl rfl

/-- C10: the configured wait time `between 1 2` always lies in the closed
interval [1, 2] seconds. -/
theorem wait_time_in_range (r : ℚ) (h0 : 0 ≤ r) (h1 : r < 1) :
    1 ≤ wait_time r ∧ wait_time r ≤ 2 := by
  constructor <;> simp [wait_time, between] <;> linarith

/-- C10 witness: the wait drawn at r = 1/2. -/
theorem wait_time_in_range_witness :
    1 ≤ wait_time (1 / 2) ∧ wait_time (1 / 2) ≤ 2 :=
  wait_time_in_range (1 / 2) (by norm_num) (by norm_num)

end R2db2
